import Mathlib

/-!
Shallow embedding of the video normalize-and-concatenate script
(src/统一视频方向.py) and proofs about its per-file filter planning,
encoder-profile selection, dimension probing, per-file gating, manifest
construction, and batch control flow.

External effects (subprocess invocations, filesystem operations, console
printing) are modelled by explicit outcome parameters and result records:
an external engine's exit status is a `Bool` input, a probe invocation is a
`ProbeOutcome`, and "what the run reported / invoked" is a record field.
Python strings are Lean `String`s, Python ints are `Int`.
-/

/-! Configuration constants from the 配置区 block of the script. -/

def INPUT_DIR : String := "."

def TEMP_DIR : String := "processed_temp"

def OUTPUT_FILE : String := "final_merged_video.mp4"

def TARGET_WIDTH : Nat := 1920

def TARGET_HEIGHT : Nat := 1080

/-! Python builtin helpers used by the script, translated to Lean. -/

/-- Python `"sep".join(xs)`: elements joined with the separator placed only
between consecutive elements, never appended at the end. -/
def str_join (sep : String) : List String → String
  | [] => ""
  | [a] => a
  | a :: b :: rest => a ++ sep ++ str_join sep (b :: rest)

/-- Python `f"{n:04d}"`: decimal rendering left-padded with zeros to at
least four characters. -/
def pad4 (n : Nat) : String :=
  let s := toString n
  String.mk (List.replicate (4 - s.length) (Char.ofNat 48)) ++ s

/-- Python `s.strip()`: leading and trailing whitespace removed. -/
def pyStrip (s : String) : String :=
  String.mk
    (((s.data.dropWhile Char.isWhitespace).reverse.dropWhile
        Char.isWhitespace).reverse)

/-- Python `s.split(sep)` for a single-character separator, accumulating
the current field until the separator is met; adjacent separators yield
empty fields. -/
def splitCharAux (sep : Char) : List Char → List Char → List String
  | [], acc => [String.mk acc.reverse]
  | c :: rest, acc =>
      if c = sep then
        String.mk acc.reverse :: splitCharAux sep rest []
      else
        splitCharAux sep rest (c :: acc)

/-- Python `s.split(sep)` for a single-character separator. -/
def pySplit (sep : Char) (s : String) : List String :=
  splitCharAux sep s.data []

/-- Python `int(s)`: whitespace stripped, then an optional sign followed by
a nonempty run of ASCII digits; anything else raises ValueError, modelled
as `none`. -/
def pyInt (s : String) : Option Int :=
  let t := (pyStrip s).data
  match t with
  | [] => none
  | c :: rest =>
      if c = Char.ofNat 45 then
        if rest ≠ [] ∧ rest.all Char.isDigit then
          some (-(Int.ofNat (rest.foldl (fun n d => 10 * n + (d.toNat - 48)) 0)))
        else none
      else if c = Char.ofNat 43 then
        if rest ≠ [] ∧ rest.all Char.isDigit then
          some (Int.ofNat (rest.foldl (fun n d => 10 * n + (d.toNat - 48)) 0))
        else none
      else
        if t.all Char.isDigit then
          some (Int.ofNat (t.foldl (fun n d => 10 * n + (d.toNat - 48)) 0))
        else none

/-! Encoder profile selection: `get_encoding_args(mode)`. -/

/-- The `common_args` list of `get_encoding_args`: frame rate, container
timescale, audio codec/sample-rate/channels/bitrate, forced overwrite. -/
def common_args : List String :=
  ["-r", "30",
   "-video_track_timescale", "15360",
   "-c:a", "aac",
   "-ar", "44100",
   "-ac", "2",
   "-b:a", "192k",
   "-y"]

/-- `get_encoding_args(mode)`: hardware (NVENC) video args when the mode
string is exactly "2", software (libx264) video args otherwise, each
followed by the shared `common_args`. -/
def get_encoding_args (mode : String) : List String :=
  (if mode = "2" then
    ["-c:v", "h264_nvenc", "-preset", "p4", "-cq", "26", "-rc", "vbr"]
   else
    ["-c:v", "libx264", "-preset", "fast", "-crf", "23"]) ++ common_args

/-! Filter planning: the `filters` construction inside `process_video_file`. -/

/-- The compound scale+pad+setsar filter string built from the target
canvas constants (the f-string at lines 91-95 of the script). -/
def scale_filter : String :=
  "scale=" ++ toString TARGET_WIDTH ++ ":" ++ toString TARGET_HEIGHT ++
    ":force_original_aspect_ratio=decrease," ++
  "pad=" ++ toString TARGET_WIDTH ++ ":" ++ toString TARGET_HEIGHT ++
    ":(ow-iw)/2:(oh-ih)/2," ++
  "setsar=1"

/-- The filter chain `process_video_file` builds for probed dimensions:
`transpose=2` first when the clip is portrait (height > width), then always
the compound scale+pad filter. -/
def plan (width height : Int) : List String :=
  (if height > width then ["transpose=2"] else []) ++ [scale_filter]

/-- Claim C1: for every probed (width, height) with height > width the
filter chain starts with the counter-clockwise rotation filter
`transpose=2`, and with height ≤ width the chain contains no rotation
filter at all. -/
theorem plan_rotation_policy (width height : Int) :
    (height > width → (plan width height).head? = some "transpose=2")
    ∧ (height ≤ width → "transpose=2" ∉ plan width height) := by
  constructor
  · intro h
    simp [plan, if_pos h]
  · intro h
    simp [plan, if_neg (not_lt.mpr h)]
    decide

theorem plan_rotation_policy_witness :
    ((1080 : Int) > 720 → (plan 720 1080).head? = some "transpose=2")
    ∧ (plan 720 1080).head? = some "transpose=2"
    ∧ "transpose=2" ∉ plan 1920 1080 :=
  ⟨(plan_rotation_policy 720 1080).1,
   (plan_rotation_policy 720 1080).1 (by decide),
   (plan_rotation_policy 1920 1080).2 (by decide)⟩

/-- Claim C2: for every probed (width, height) the filter chain ends with
exactly one compound scale+pad entry referencing the configured canvas
dimensions: a decrease-only aspect-preserving scale, a centered pad to the
canvas, and a square pixel aspect ratio flag. -/
theorem plan_ends_with_scale_pad (width height : Int) :
    (plan width height).getLast? =
      some ("scale=" ++ toString TARGET_WIDTH ++ ":" ++ toString TARGET_HEIGHT ++
              ":force_original_aspect_ratio=decrease," ++
            "pad=" ++ toString TARGET_WIDTH ++ ":" ++ toString TARGET_HEIGHT ++
              ":(ow-iw)/2:(oh-ih)/2," ++
            "setsar=1")
    ∧ (plan width height).count
        ("scale=" ++ toString TARGET_WIDTH ++ ":" ++ toString TARGET_HEIGHT ++
           ":force_original_aspect_ratio=decrease," ++
         "pad=" ++ toString TARGET_WIDTH ++ ":" ++ toString TARGET_HEIGHT ++
           ":(ow-iw)/2:(oh-ih)/2," ++
         "setsar=1") = 1 := by
  unfold plan
  by_cases h : height > width
  · rw [if_pos h]
    constructor
    · rfl
    · decide
  · rw [if_neg h]
    constructor
    · rfl
    · decide

/-- Claim C4: every mode string other than "2" selects the software
profile (libx264), while "2" selects the hardware profile carrying the
vendor-accelerated codec identifier and the variable-rate-control flag. -/
theorem get_encoding_args_mode_select (mode : String) (hm : mode ≠ "2") :
    get_encoding_args mode =
      ["-c:v", "libx264", "-preset", "fast", "-crf", "23",
       "-r", "30", "-video_track_timescale", "15360",
       "-c:a", "aac", "-ar", "44100", "-ac", "2", "-b:a", "192k", "-y"]
    ∧ get_encoding_args "2" =
      ["-c:v", "h264_nvenc", "-preset", "p4", "-cq", "26", "-rc", "vbr",
       "-r", "30", "-video_track_timescale", "15360",
       "-c:a", "aac", "-ar", "44100", "-ac", "2", "-b:a", "192k", "-y"] := by
  constructor
  · unfold get_encoding_args
    rw [if_neg hm]
    rfl
  · rfl

theorem get_encoding_args_mode_select_witness :
    get_encoding_args "" =
      ["-c:v", "libx264", "-preset", "fast", "-crf", "23",
       "-r", "30", "-video_track_timescale", "15360",
       "-c:a", "aac", "-ar", "44100", "-ac", "2", "-b:a", "192k", "-y"]
    ∧ get_encoding_args "9" = get_encoding_args ""
    ∧ get_encoding_args "2" =
      ["-c:v", "h264_nvenc", "-preset", "p4", "-cq", "26", "-rc", "vbr",
       "-r", "30", "-video_track_timescale", "15360",
       "-c:a", "aac", "-ar", "44100", "-ac", "2", "-b:a", "192k", "-y"] :=
  ⟨(get_encoding_args_mode_select "" (by decide)).1,
   ((get_encoding_args_mode_select "9" (by decide)).1).trans
     ((get_encoding_args_mode_select "" (by decide)).1).symm,
   (get_encoding_args_mode_select "" (by decide)).2⟩

/-- Claim C9: for every mode the selected argument list ends with the same
shared tail: frame rate 30, the fixed container timescale 15360, and the
fixed audio parameters (aac codec, 44100 Hz, 2 channels, 192k bitrate). -/
theorem get_encoding_args_shared_tail (mode : String) :
    List.IsSuffix
      ["-r", "30", "-video_track_timescale", "15360",
       "-c:a", "aac", "-ar", "44100", "-ac", "2", "-b:a", "192k", "-y"]
      (get_encoding_args mode) := by
  refine ⟨if mode = "2" then
            ["-c:v", "h264_nvenc", "-preset", "p4", "-cq", "26", "-rc", "vbr"]
          else
            ["-c:v", "libx264", "-preset", "fast", "-crf", "23"], ?_⟩
  unfold get_encoding_args common_args
  by_cases h : mode = "2"
  · rw [if_pos h]
  · rw [if_neg h]

/-! Dimension probing: `get_video_dimensions(file_path)`. -/

/-- Outcome of the ffprobe subprocess invocation: either `subprocess.run`
raised (tool not found, or non-zero exit under check=True), or it exited
zero with the given captured stdout. -/
inductive ProbeOutcome where
  | errored
  | output (stdout : String)

/-- Python tuple unpacking `width, height = map(int, parts)`: succeeds
exactly when there are two parts and both convert; any other shape, or a
failing `int()` conversion, raises ValueError. -/
def unpack2 (parts : List (Option Int)) : Except String (Int × Int) :=
  match parts with
  | [some a, some b] => Except.ok (a, b)
  | _ => Except.error "ValueError"

/-- `get_video_dimensions` as observed by its caller. On a raised
subprocess error the except-branch yields (0, 0); on captured stdout the
stripped text is checked for an 'x' and, when present, split and converted.
Because the script returns the lazy `map(int, ...)` object, the `int()`
conversions (and the arity check) happen during the caller's tuple
unpacking, outside the try/except: a conversion failure there is a raised
ValueError, modelled as `Except.error`. -/
def get_video_dimensions (r : ProbeOutcome) : Except String (Int × Int) :=
  match r with
  | ProbeOutcome.errored => Except.ok (0, 0)
  | ProbeOutcome.output stdout =>
      let dim := pyStrip stdout
      if dim.data.contains (Char.ofNat 120) then
        unpack2 ((pySplit (Char.ofNat 120) dim).map pyInt)
      else
        Except.ok (0, 0)

/-! Per-file normalization: `process_video_file(input_file, output_path,
encoding_args)`. -/

/-- Observable outcome of one `process_video_file` call: whether the
external transcoding engine (ffmpeg) was invoked, the -vf filter argument
passed when it was, and the boolean return value. -/
structure ProcResult where
  invoked : Bool
  vf : Option String
  success : Bool
deriving DecidableEq

/-- `process_video_file`: unpack the probed dimensions (which can raise,
see `get_video_dimensions`), return False immediately when width == 0,
otherwise build the filter chain, invoke the engine once with the joined
filters, and return whether the engine exited zero (`engineOk`). -/
def process_video_file (probe : ProbeOutcome) (engineOk : Bool) :
    Except String ProcResult :=
  match get_video_dimensions probe with
  | Except.error e => Except.error e
  | Except.ok (width, height) =>
      if width = 0 then Except.ok ⟨false, none, false⟩
      else Except.ok ⟨true, some (str_join "," (plan width height)), engineOk⟩

/-- Claim C5 (code bug): on inspection-tool stdout "axb" — malformed but
containing an 'x' — the probe does not return the (0, 0) sentinel; the
deferred `int()` conversions raise a ValueError at the caller's unpacking,
outside the function's try/except. -/
theorem get_video_dimensions_malformed_raises :
    get_video_dimensions (ProbeOutcome.output "axb") =
      Except.error "ValueError" := by
  rfl

/-- Claim C6: when the probe yields the sentinel (0, 0), the normalizer
returns False immediately and never invokes the transcoding engine,
whatever that engine would have returned. -/
theorem process_video_file_sentinel_gate (probe : ProbeOutcome)
    (engineOk : Bool)
    (h : get_video_dimensions probe = Except.ok (0, 0)) :
    process_video_file probe engineOk = Except.ok ⟨false, none, false⟩ := by
  unfold process_video_file
  rw [h]
  rfl

theorem process_video_file_sentinel_gate_witness :
    get_video_dimensions ProbeOutcome.errored = Except.ok (0, 0)
    ∧ process_video_file ProbeOutcome.errored true =
        Except.ok ⟨false, none, false⟩ :=
  ⟨rfl, process_video_file_sentinel_gate ProbeOutcome.errored true rfl⟩

/-- Claim C10: the gate tests only the width component: any probed result
with width 0 — whatever the height, not only the exact (0, 0) sentinel —
makes the normalizer return False without invoking the engine. -/
theorem process_video_file_width_only_gate (probe : ProbeOutcome)
    (engineOk : Bool) (height : Int)
    (h : get_video_dimensions probe = Except.ok (0, height)) :
    process_video_file probe engineOk = Except.ok ⟨false, none, false⟩ := by
  unfold process_video_file
  rw [h]
  rfl

theorem process_video_file_width_only_gate_witness :
    get_video_dimensions (ProbeOutcome.output "0x720") = Except.ok (0, 720)
    ∧ process_video_file (ProbeOutcome.output "0x720") true =
        Except.ok ⟨false, none, false⟩ :=
  ⟨by rfl,
   process_video_file_width_only_gate (ProbeOutcome.output "0x720") true 720
     (by rfl)⟩

/-! Batch driver: the scan loop of `main`, `merge_videos`, and the
post-scan control flow of `main`. -/

/-- Python `s.replace(old, new)` for a single-character pattern and
replacement (the script's `.replace("\x5c\x5c", "/")` on the absolute
path). -/
def pyReplaceChar (pat rep : Char) (s : String) : String :=
  String.mk (s.data.map (fun c => if c = pat then rep else c))

/-- The scratch output path for the clip holding sequential index `i`:
`os.path.join(TEMP_DIR, f"processed_{i:04d}.mp4")`. The platform path
join is an external collaborator, passed in as `join`. -/
def output_path_at (join : String → String → String) (i : Nat) : String :=
  join TEMP_DIR ("processed_" ++ pad4 i ++ ".mp4")

/-- The manifest line appended for the `i`-th successful normalization:
`f"file \x27{abs_path}\x27"` where `abs_path` is the absolute output path
with backslashes replaced by forward slashes. `abspath` (the platform's
`os.path.abspath`) is an external collaborator passed in. -/
def manifest_entry (join : String → String → String)
    (abspath : String → String) (i : Nat) : String :=
  "file \x27" ++
    pyReplaceChar (Char.ofNat 92) (Char.ofNat 47)
      (abspath (output_path_at join i)) ++ "\x27"

/-- The per-candidate loop of `main`: each candidate source file comes with
the success flag its `process_video_file` call returned; on success a
manifest line for the output path indexed by the current length of
`valid_files` is appended, on failure nothing is. -/
def scanLoop (join : String → String → String) (abspath : String → String) :
    List (String × Bool) → List String → List String
  | [], valid_files => valid_files
  | f :: rest, valid_files =>
      if f.2 then
        scanLoop join abspath rest
          (valid_files ++ [manifest_entry join abspath valid_files.length])
      else
        scanLoop join abspath rest valid_files

/-- What `merge_videos` reports: on a zero exit of the concat invocation it
prints the success banner and the output path; on `CalledProcessError` it
prints the merge-failure notice instead (and swallows the exception). -/
structure MergeOutcome where
  reportedSuccess : Bool
  reportedFailure : Bool
deriving DecidableEq

/-- `merge_videos(list_file, output_file)` as observed through its console
reporting, as a function of the concat engine's exit status. -/
def merge_videos (engineOk : Bool) : MergeOutcome :=
  if engineOk then ⟨true, false⟩ else ⟨false, true⟩

/-- Observable outcome of `main` after the scan loop: whether the
"no video files" notice was printed (and the run returned early), the
manifest text written to the list file (if any), and the merge step's
report (`none` when the Concatenator was never invoked). -/
structure MainOutcome where
  reportedNoFiles : Bool
  manifest : Option String
  merge : Option MergeOutcome
deriving DecidableEq

/-- The tail of `main` (lines 171-181 of the script): if `valid_files` is
empty, print the notice and return before writing the list file or calling
`merge_videos`; otherwise write the newline-joined manifest and merge. -/
def main_run (join : String → String → String) (abspath : String → String)
    (files : List (String × Bool)) (concatOk : Bool) : MainOutcome :=
  let valid_files := scanLoop join abspath files []
  if valid_files = [] then
    ⟨true, none, none⟩
  else
    ⟨false, some (str_join "\n" valid_files), some (merge_videos concatOk)⟩

/-- The scan loop appends exactly one manifest line per success, indexed
consecutively from the length of the accumulator. -/
theorem scanLoop_eq (join : String → String → String)
    (abspath : String → String) (files : List (String × Bool))
    (acc : List String) :
    scanLoop join abspath files acc =
      acc ++ (List.range' acc.length ((files.filter fun f => f.2).length)).map
        (manifest_entry join abspath) := by
  induction files generalizing acc with
  | nil => simp [scanLoop]
  | cons f rest ih =>
      rcases f with ⟨p, ok⟩
      cases ok with
      | false => simpa [scanLoop, List.filter_cons] using ih acc
      | true =>
          rw [show scanLoop join abspath ((p, true) :: rest) acc =
                scanLoop join abspath rest
                  (acc ++ [manifest_entry join abspath acc.length]) from rfl]
          rw [ih]
          simp [List.filter_cons, List.range'_succ, List.range']

/-- Joining a nonempty list of lines with a newline yields text whose
length is the sum of the line lengths plus one separator between
consecutive lines — in particular no trailing separator. -/
theorem str_join_newline_length (l : List String) (h : l ≠ []) :
    (str_join "\n" l).length =
      (l.map String.length).sum + (l.length - 1) := by
  induction l with
  | nil => exact absurd rfl h
  | cons a rest ih =>
      cases rest with
      | nil => simp [str_join]
      | cons b rest2 =>
          have ihbr := ih (by simp)
          have hnl : ("\n" : String).length = 1 := rfl
          simp only [str_join, String.length_append, List.map_cons,
            List.sum_cons, List.length_cons, hnl] at ihbr ⊢
          omega

/-- Concrete POSIX-style path join used to instantiate the external
`os.path.join` collaborator in witnesses. -/
def joinPosix : String → String → String := fun d f => d ++ "/" ++ f

/-- Concrete `os.path.abspath` instantiation for witnesses: resolve
relative paths under a fixed root. -/
def absUnderRoot : String → String := fun s => "/videos/" ++ s

/-- Claim C3: the manifest holds exactly one line per successful
normalization, indexed in processing order independently of the source
names; each line is exactly `file \x27<abspath with forward slashes>\x27`;
the text written to the list file is the newline-join of those lines, with
one separator between consecutive lines and none trailing. -/
theorem manifest_properties (join : String → String → String)
    (abspath : String → String) (files : List (String × Bool)) :
    scanLoop join abspath files [] =
      (List.range ((files.filter fun f => f.2).length)).map
        (manifest_entry join abspath)
    ∧ (∀ i : Nat, manifest_entry join abspath i =
        "file \x27" ++
          pyReplaceChar (Char.ofNat 92) (Char.ofNat 47)
            (abspath (join TEMP_DIR ("processed_" ++ pad4 i ++ ".mp4"))) ++
          "\x27")
    ∧ (scanLoop join abspath files [] ≠ [] → ∀ concatOk,
        (main_run join abspath files concatOk).manifest =
          some (str_join "\n" (scanLoop join abspath files [])))
    ∧ (scanLoop join abspath files [] ≠ [] →
        (str_join "\n" (scanLoop join abspath files [])).length =
          ((scanLoop join abspath files []).map String.length).sum +
            ((scanLoop join abspath files []).length - 1)) := by
  refine ⟨?_, ?_, ?_, ?_⟩
  · rw [scanLoop_eq]
    simp [List.range_eq_range']
  · intro i
    rfl
  · intro h concatOk
    simp [main_run, h]
  · intro h
    exact str_join_newline_length _ h

theorem manifest_properties_witness :
    (main_run joinPosix absUnderRoot
        [("b.mov", true), ("a.mp4", false), ("c.ts", true)] true).manifest =
      some (str_join "\n"
        (scanLoop joinPosix absUnderRoot
          [("b.mov", true), ("a.mp4", false), ("c.ts", true)] []))
    ∧ (str_join "\n"
        (scanLoop joinPosix absUnderRoot
          [("b.mov", true), ("a.mp4", false), ("c.ts", true)] [])).length =
        ((scanLoop joinPosix absUnderRoot
            [("b.mov", true), ("a.mp4", false), ("c.ts", true)] []).map
          String.length).sum +
          ((scanLoop joinPosix absUnderRoot
              [("b.mov", true), ("a.mp4", false), ("c.ts", true)] []).length
            - 1) :=
  ⟨(manifest_properties joinPosix absUnderRoot
      [("b.mov", true), ("a.mp4", false), ("c.ts", true)]).2.2.1
      (by decide) true,
   (manifest_properties joinPosix absUnderRoot
      [("b.mov", true), ("a.mp4", false), ("c.ts", true)]).2.2.2
      (by decide)⟩

/-- Claim C7: when at least one clip normalized successfully and the
concat invocation exits non-zero, the run's merge step reports failure and
does not report success. -/
theorem concat_failure_reported (join : String → String → String)
    (abspath : String → String) (files : List (String × Bool))
    (h : (files.filter fun f => f.2) ≠ []) :
    (main_run join abspath files false).merge =
      some ⟨false, true⟩ := by
  have hne : scanLoop join abspath files [] ≠ [] := by
    intro hcontra
    rw [scanLoop_eq] at hcontra
    simp only [List.nil_append, List.map_eq_nil_iff] at hcontra
    exact h (List.length_eq_zero.mp (by simpa using congrArg List.length hcontra))
  simp [main_run, hne, merge_videos]

theorem concat_failure_reported_witness :
    (main_run joinPosix absUnderRoot [("a.mp4", true)] false).merge =
      some ⟨false, true⟩ :=
  concat_failure_reported joinPosix absUnderRoot [("a.mp4", true)] (by decide)

/-- Claim C8: when no candidate normalizes successfully the run prints the
notice and returns normally: no manifest is written and the Concatenator
is never invoked, whatever its exit status would have been. -/
theorem empty_manifest_aborts (join : String → String → String)
    (abspath : String → String) (files : List (String × Bool))
    (concatOk : Bool) (h : ∀ f ∈ files, f.2 = false) :
    main_run join abspath files concatOk = ⟨true, none, none⟩ := by
  have hfil : (files.filter fun f => f.2) = [] := by
    rw [List.filter_eq_nil_iff]
    intro f hf
    simp [h f hf]
  have hempty : scanLoop join abspath files [] = [] := by
    rw [scanLoop_eq, hfil]
    simp
  simp [main_run, hempty]

theorem empty_manifest_aborts_witness :
    main_run joinPosix absUnderRoot [("bad.avi", false)] true =
      ⟨true, none, none⟩ :=
  empty_manifest_aborts joinPosix absUnderRoot [("bad.avi", false)] true
    (by decide)
